import Mathlib

/-
Verification development for `server.js`, an OpenAI → NVIDIA NIM proxy.

The source is a single Express server.  The pieces embedded here are the
pure transformation cores of the two request handlers:

  * the streaming data handler (byte buffering, newline splitting, the
    `data: ` / `[DONE]` line dispatch, and the per-delta reasoning/content
    rewrite with the latched `reasoningStarted` flag);
  * the model-resolution fallback heuristic and the `MODEL_MAPPING` table;
  * the request-parameter defaulting (`nimRequest`) of both handlers;
  * the system-prompt injection (`processedMessages`);
  * the non-streaming response transform (`openaiResponse`).

Wire-level text is modelled as `List Char` (one entry per character of
the decoded chunk text).  `JSON.parse` and `JSON.stringify` are platform
library functions, not repository code; they are abstracted as explicit
parameters (`parse : List Char → Option StreamEvent`, and a `stringify`
parameter where output bytes are spelled out).  JavaScript string
truthiness (`undefined` and `""` are falsy) is modelled by `truthyS`,
number truthiness (`undefined` and `0` are falsy) by `truthyQ`.

The source's global feature toggles are constants in the file; the
functions that read them take the flag as an explicit parameter so that
both settings can be reasoned about (the constants record the shipped
values).
-/

/-- Source constant `SHOW_REASONING = false` (server.js line 18). -/
def SHOW_REASONING : Bool := false

/-- Source constant `ENABLE_THINKING_MODE = false` (server.js line 21). -/
def ENABLE_THINKING_MODE : Bool := false

/-- Source constant `FORCE_DETAILED_RESPONSES = true` (server.js line 24). -/
def FORCE_DETAILED_RESPONSES : Bool := true

/-- JavaScript truthiness of an optional string field:
`undefined` and the empty string are falsy. -/
def truthyS : Option String → Bool
  | none => false
  | some s => s != ""

/-- A streamed delta fragment: `{ content?, reasoning_content? }`
(`none` = the key is absent from the JSON object). -/
structure Delta where
  reasoning_content : Option String := none
  content : Option String := none
  deriving DecidableEq

/-- One element of a streamed event's `choices` array. -/
structure StreamChoice where
  delta : Option Delta := none
  deriving DecidableEq

/-- A parsed streamed event: `{ choices: [...] }`. -/
structure StreamEvent where
  choices : List StreamChoice := []
  deriving DecidableEq

/--
The per-delta rewrite of server.js lines 179–207, parameterised by the
`SHOW_REASONING` toggle and the mutable `reasoningStarted` flag.
Returns the delta as left in `data.choices[0].delta` together with the
new value of `reasoningStarted`.
-/
def transformDelta (showReasoning : Bool) (reasoningStarted : Bool) (d : Delta) :
    Delta × Bool :=
  let reasoning := d.reasoning_content
  let content := d.content
  if showReasoning then
    -- `let combinedContent = ''` then the two if/else-if chains
    let p1 : String × Bool :=
      if truthyS reasoning && !reasoningStarted then
        ("<think>\n" ++ reasoning.getD "", true)
      else if truthyS reasoning then
        (reasoning.getD "", reasoningStarted)
      else
        ("", reasoningStarted)
    let p2 : String × Bool :=
      if truthyS content && p1.2 then
        (p1.1 ++ "</think>\n\n" ++ content.getD "", false)
      else if truthyS content then
        (p1.1 ++ content.getD "", p1.2)
      else
        p1
    -- `if (combinedContent) { delta.content = combinedContent; delete delta.reasoning_content }`
    if p2.1 != "" then
      ({ reasoning_content := none, content := some p2.1 }, p2.2)
    else
      (d, p2.2)
  else
    -- content kept if truthy, else set to `''`; reasoning always deleted
    ({ reasoning_content := none,
       content := some (if truthyS content then content.getD "" else "") },
     reasoningStarted)

/--
The `if (data.choices?.[0]?.delta)` guard of server.js line 175: the
rewrite applies only to the first choice's delta, every other part of
the event is forwarded as parsed.
-/
def transformEvent (showReasoning : Bool) (reasoningStarted : Bool)
    (ev : StreamEvent) : StreamEvent × Bool :=
  match ev.choices with
  | [] => (ev, reasoningStarted)
  | c0 :: rest =>
    match c0.delta with
    | none => (ev, reasoningStarted)
    | some d =>
      let r := transformDelta showReasoning reasoningStarted d
      (⟨{ c0 with delta := some r.1 } :: rest⟩, r.2)

/-- The `'data: '` line marker (the handler tests `line.startsWith('data: ')`). -/
def dataMarker : List Char := "data: ".data

/-- The `'[DONE]'` sentinel (the handler tests `line.includes('[DONE]')`). -/
def doneMarker : List Char := "[DONE]".data

/-- One write performed by the stream handler.
`verbatim line` stands for `res.write(line + '\n')` (bytes `line ++ "\n"`);
`event e` stands for `` res.write(`data: ${JSON.stringify(e)}\n\n`) ``. -/
inductive OutWrite where
  | verbatim (line : List Char)
  | event (e : StreamEvent)
  deriving DecidableEq

/-- The bytes a write puts on the outbound socket, given a serialiser
standing in for `JSON.stringify`. -/
def outBytes (stringify : StreamEvent → List Char) : OutWrite → List Char
  | OutWrite.verbatim line => line ++ ['\n']
  | OutWrite.event e => "data: ".data ++ stringify e ++ "\n\n".data

/-- The events among a list of writes (what a client sees after parsing
the re-serialised `data:` frames). -/
def writtenEvents : List OutWrite → List StreamEvent
  | [] => []
  | OutWrite.verbatim _ :: rest => writtenEvents rest
  | OutWrite.event e :: rest => e :: writtenEvents rest

/--
Processing of one complete line, server.js lines 166–213:
non-`data: ` lines are dropped; `data: ` lines containing `[DONE]`
are forwarded verbatim; otherwise the payload after the 6-character
prefix is parsed (`parse` abstracts `JSON.parse`), a parse failure
forwards the original line verbatim (the `catch`), and a parsed event
is rewritten by `transformEvent` and written as an event frame.
-/
def processLine (showReasoning : Bool) (parse : List Char → Option StreamEvent)
    (reasoningStarted : Bool) (line : List Char) : List OutWrite × Bool :=
  if dataMarker.isPrefixOf line then
    if doneMarker <:+: line then
      ([OutWrite.verbatim line], reasoningStarted)
    else
      match parse (line.drop 6) with
      | none => ([OutWrite.verbatim line], reasoningStarted)
      | some data =>
        let r := transformEvent showReasoning reasoningStarted data
        ([OutWrite.event r.1], r.2)
  else
    ([], reasoningStarted)

/-- The `lines.forEach(...)` loop with the `reasoningStarted` flag threaded through. -/
def processLines (showReasoning : Bool) (parse : List Char → Option StreamEvent) :
    Bool → List (List Char) → List OutWrite × Bool
  | st, [] => ([], st)
  | st, l :: ls =>
    let r := processLine showReasoning parse st l
    let rs := processLines showReasoning parse r.2 ls
    (r.1 ++ rs.1, rs.2)

/-- Model of `String.prototype.split('\n')` on the buffered text: the list of
fragments between newlines (never empty; the last fragment is the part
after the final newline). -/
def splitNl : List Char → List (List Char)
  | [] => [[]]
  | c :: rest =>
    if c = '\n' then
      [] :: splitNl rest
    else
      match splitNl rest with
      | [] => [[c]]
      | l :: ls => (c :: l) :: ls

/-- Direct "complete lines / trailing fragment" view of a text:
`(feed s).1` are the newline-terminated lines of `s` and `(feed s).2`
is the trailing fragment after the last newline. -/
def feed : List Char → List (List Char) × List Char
  | [] => ([], [])
  | c :: rest =>
    let r := feed rest
    if c = '\n' then
      ([] :: r.1, r.2)
    else
      match r.1 with
      | [] => ([], c :: r.2)
      | l :: ls => ((c :: l) :: ls, r.2)

/-- Per-stream handler state: the text buffer and the latched
`reasoningStarted` flag (server.js lines 158–159). -/
structure HState where
  buffer : List Char
  reasoningStarted : Bool
  deriving DecidableEq

/--
The `response.data.on('data', chunk => ...)` callback body,
server.js lines 161–215: append the chunk to the buffer, split on
newline, keep the final fragment as the new buffer (`lines.pop() || ''`),
process all preceding fragments as complete lines.
-/
def handleChunk (showReasoning : Bool) (parse : List Char → Option StreamEvent)
    (s : HState) (chunk : List Char) : List OutWrite × HState :=
  let lines := splitNl (s.buffer ++ chunk)
  let buffer := lines.getLastD []
  let r := processLines showReasoning parse s.reasoningStarted lines.dropLast
  (r.1, ⟨buffer, r.2⟩)

/-- Deliver a list of chunks to the handler from a given state,
collecting all writes. -/
def runStream (showReasoning : Bool) (parse : List Char → Option StreamEvent) :
    HState → List (List Char) → List OutWrite × HState
  | s, [] => ([], s)
  | s, c :: cs =>
    let r := handleChunk showReasoning parse s c
    let rs := runStream showReasoning parse r.2 cs
    (r.1 ++ rs.1, rs.2)

/-- A whole streaming session: chunks delivered to the initial state
(`buffer = ''`, `reasoningStarted = false`). -/
def runStream0 (showReasoning : Bool) (parse : List Char → Option StreamEvent)
    (chunks : List (List Char)) : List OutWrite × HState :=
  runStream showReasoning parse ⟨[], false⟩ chunks

/-! ### Request adapter: model resolution (server.js lines 77–105, 312–340) -/

/-- A chat message `{ role, content }`. -/
structure ChatMessage where
  role : String
  content : String
  deriving DecidableEq

/-- The `MODEL_MAPPING` table (server.js lines 27–35), as a lookup. -/
def MODEL_MAPPING : String → Option String := fun model =>
  if model = "gpt-3.5-turbo" then some "nvidia/llama-3.1-nemotron-ultra-253b-v1"
  else if model = "gpt-4" then some "qwen/qwen3-coder-480b-a35b-instruct"
  else if model = "gpt-4-turbo" then some "moonshotai/kimi-k2-instruct-0905"
  else if model = "gpt-4o" then some "deepseek-ai/deepseek-v3.1"
  else if model = "claude-3-opus" then some "openai/gpt-oss-120b"
  else if model = "claude-3-sonnet" then some "openai/gpt-oss-20b"
  else if model = "gemini-pro" then some "qwen/qwen3-next-80b-a3b-thinking"
  else none

/-- Model of `String.prototype.includes` (substring test). -/
def includesStr (hay needle : String) : Bool := decide (needle.data <:+: hay.data)

/-- Model of `String.prototype.toLowerCase` (ASCII case folding, which covers every
identifier the heuristic tests). -/
def toLowerCase (s : String) : String := ⟨s.data.map Char.toLower⟩

/-- The substring fallback heuristic of the FIRST handler
(server.js lines 95–104).  Note its final `else` yields the 70b model
(the comment on line 102: "Changed default from 8b to 70b"). -/
def fallbackModel (model : String) : String :=
  let modelLower := toLowerCase model
  if includesStr modelLower "gpt-4" || includesStr modelLower "claude-opus" ||
      includesStr modelLower "405b" then
    "meta/llama-3.1-405b-instruct"
  else if includesStr modelLower "claude" || includesStr modelLower "gemini" ||
      includesStr modelLower "70b" then
    "meta/llama-3.1-70b-instruct"
  else
    "meta/llama-3.1-70b-instruct"

/-- The substring fallback heuristic of the SECOND handler
(server.js lines 330–339), whose final `else` yields the 8b model. -/
def fallbackModel2 (model : String) : String :=
  let modelLower := toLowerCase model
  if includesStr modelLower "gpt-4" || includesStr modelLower "claude-opus" ||
      includesStr modelLower "405b" then
    "meta/llama-3.1-405b-instruct"
  else if includesStr modelLower "claude" || includesStr modelLower "gemini" ||
      includesStr modelLower "70b" then
    "meta/llama-3.1-70b-instruct"
  else
    "meta/llama-3.1-8b-instruct"

/-- Model resolution of the first handler: table lookup, then the live
probe (abstracted to whether it adopted the inbound identifier), then
the substring heuristic. -/
def resolveModel (probeAdopts : Bool) (model : String) : String :=
  match MODEL_MAPPING model with
  | some nimModel => nimModel
  | none => if probeAdopts then model else fallbackModel model

/-- Model resolution of the second handler (same shape, 8b final default). -/
def resolveModel2 (probeAdopts : Bool) (model : String) : String :=
  match MODEL_MAPPING model with
  | some nimModel => nimModel
  | none => if probeAdopts then model else fallbackModel2 model

/-! ### Request adapter: prompt injection (server.js lines 107–128) -/

/-- Source constant `DETAILED_SYSTEM_PROMPT` (server.js lines 38–44). -/
def DETAILED_SYSTEM_PROMPT : String :=
  "You are a helpful, knowledgeable assistant who provides comprehensive and detailed responses. When answering questions:\n- Give thorough explanations with context and examples\n- Break down complex topics into detailed sections\n- Provide multiple perspectives when relevant\n- Use elaboration rather than brevity\n- Aim for complete, well-rounded answers that fully address the question\n- Don\x27t rush to conclude - explore the topic in depth"

/-- The elaboration suffix appended to an existing system prompt
(server.js line 122). -/
def ENHANCE_SUFFIX : String :=
  "\n\nIMPORTANT: Provide detailed, comprehensive responses. Elaborate fully on your answers."

/-- The `processedMessages` computation (server.js lines 107–128), parameterised by the
`FORCE_DETAILED_RESPONSES` toggle. -/
def processedMessages (forceDetailed : Bool) (messages : List ChatMessage) :
    List ChatMessage :=
  if forceDetailed then
    let hasSystemPrompt := messages.any (fun m => m.role == "system")
    if !hasSystemPrompt then
      { role := "system", content := DETAILED_SYSTEM_PROMPT } :: messages
    else
      messages.map (fun m =>
        if m.role == "system" then
          { m with content := m.content ++ ENHANCE_SUFFIX }
        else m)
  else
    messages

/-! ### Request adapter: parameter defaulting (server.js lines 131–141, 343–350) -/

/-- JavaScript truthiness of an optional numeric field:
`undefined` and `0` are falsy. -/
def truthyQ : Option ℚ → Bool
  | none => false
  | some q => q != 0

/-- The upstream request body of the first handler. -/
structure NimRequest where
  model : String
  messages : List ChatMessage
  temperature : ℚ
  max_tokens : ℚ
  top_p : ℚ
  presence_penalty : ℚ
  frequency_penalty : ℚ
  /-- Field `extra_body`: `some true` models the chat-template-kwargs thinking object,
  `none` models `undefined` (the key is omitted). -/
  extra_body : Option Bool
  stream : Bool
  deriving DecidableEq

/-- The `nimRequest` body of the first handler (server.js lines 131–141).
`temperature`, `top_p`, `presence_penalty`, `frequency_penalty` use the
`x !== undefined ? x : default` pattern; `max_tokens` and `stream`
use `x || default`. -/
def nimRequest (nimModel : String) (msgs : List ChatMessage)
    (temperature max_tokens top_p presence_penalty frequency_penalty : Option ℚ)
    (enableThinking : Bool) (stream : Option Bool) : NimRequest :=
  { model := nimModel
    messages := msgs
    temperature := temperature.getD 0.85
    max_tokens := if truthyQ max_tokens then max_tokens.getD 0 else 4096
    top_p := top_p.getD 0.95
    presence_penalty := presence_penalty.getD 0.6
    frequency_penalty := frequency_penalty.getD 0.3
    extra_body := if enableThinking then some true else none
    stream := stream.getD false }

/-- The upstream request body of the second handler. -/
structure NimRequest2 where
  model : String
  messages : List ChatMessage
  temperature : ℚ
  max_tokens : ℚ
  extra_body : Option Bool
  stream : Bool
  deriving DecidableEq

/-- The `nimRequest` body of the second handler (server.js lines 343–350):
both `temperature` and `max_tokens` use `x || default`. -/
def nimRequest2 (nimModel : String) (msgs : List ChatMessage)
    (temperature max_tokens : Option ℚ) (enableThinking : Bool)
    (stream : Option Bool) : NimRequest2 :=
  { model := nimModel
    messages := msgs
    temperature := if truthyQ temperature then temperature.getD 0 else 0.6
    max_tokens := if truthyQ max_tokens then max_tokens.getD 0 else 9024
    extra_body := if enableThinking then some true else none
    stream := stream.getD false }

/-! ### Response adapter, non-streaming path (server.js lines 224–252) -/

/-- The message inside an upstream non-streaming choice. -/
structure NimRespMessage where
  role : String
  content : Option String := none
  reasoning_content : Option String := none
  deriving DecidableEq

/-- One upstream non-streaming choice. -/
structure NimRespChoice where
  index : Nat
  message : NimRespMessage
  finish_reason : Option String := none
  deriving DecidableEq

/-- A usage statistics record. -/
structure Usage where
  prompt_tokens : Nat
  completion_tokens : Nat
  total_tokens : Nat
  deriving DecidableEq

/-- The upstream non-streaming response body. -/
structure NimResponseBody where
  choices : List NimRespChoice
  usage : Option Usage := none
  deriving DecidableEq

/-- One outbound choice. -/
structure OpenAIChoice where
  index : Nat
  message : ChatMessage
  finish_reason : Option String
  deriving DecidableEq

/-- The outbound (OpenAI-shaped) response. -/
structure OpenAIResponse where
  id : String
  object : String
  created : Nat
  model : String
  choices : List OpenAIChoice
  usage : Usage
  deriving DecidableEq

/-- The `openaiResponse` transform (server.js lines 224–250); `model` is the inbound
identifier and `now` stands for `Date.now()` in milliseconds. -/
def openaiResponse (showReasoning : Bool) (model : String) (now : Nat)
    (body : NimResponseBody) : OpenAIResponse :=
  { id := "chatcmpl-" ++ toString now
    object := "chat.completion"
    created := now / 1000
    model := model
    choices := body.choices.map (fun choice =>
      let fullContent := choice.message.content.getD ""
      let fullContent :=
        if showReasoning && truthyS choice.message.reasoning_content then
          "<think>\n" ++ choice.message.reasoning_content.getD "" ++
            "\n</think>\n\n" ++ fullContent
        else fullContent
      { index := choice.index
        message := { role := choice.message.role, content := fullContent }
        finish_reason := choice.finish_reason })
    usage := body.usage.getD ⟨0, 0, 0⟩ }

/-! ### Delimiter bookkeeping for the streaming reasoning rewrite

The rewrite injects an opening `<think>\n` marker exactly when the first
branch of the reasoning chain fires and a closing `</think>\n\n` marker
exactly when the first branch of the content chain fires.  The two
counting functions below read those branch conditions off
`transformDelta` (with `showReasoning = true`); grounding lemmas later
connect a non-zero count to the marker actually appearing in the
emitted content. -/

/-- Number of `<think>` opening markers the rewrite injects for delta
`d` arriving in state `reasoningStarted`. -/
def deltaOpens (reasoningStarted : Bool) (d : Delta) : Nat :=
  if truthyS d.reasoning_content && !reasoningStarted then 1 else 0

/-- Number of `</think>` closing markers the rewrite injects for delta
`d` arriving in state `reasoningStarted`. -/
def deltaCloses (reasoningStarted : Bool) (d : Delta) : Nat :=
  if truthyS d.content && (reasoningStarted || truthyS d.reasoning_content) then 1
  else 0

/-- The delta a complete line hands to the rewrite, if any (the line is a
`data: ` line, is not a `[DONE]` line, parses, and has a first choice
with a delta). -/
def lineDelta (parse : List Char → Option StreamEvent) (line : List Char) :
    Option Delta :=
  if dataMarker.isPrefixOf line then
    if doneMarker <:+: line then none
    else
      match parse (line.drop 6) with
      | none => none
      | some data =>
        match data.choices with
        | [] => none
        | c0 :: _ => c0.delta

  else none

/-- Delimiter totals over a line sequence (opens, closes, final flag),
threading the `reasoningStarted` flag exactly as `processLines` does
with `showReasoning = true`. -/
def countLines (parse : List Char → Option StreamEvent) :
    Bool → List (List Char) → Nat × Nat × Bool
  | st, [] => (0, 0, st)
  | st, l :: ls =>
    match lineDelta parse l with
    | none => countLines parse st ls
    | some d =>
      let r := countLines parse (transformDelta true st d).2 ls
      (deltaOpens st d + r.1, deltaCloses st d + r.2.1, r.2.2)

/-! ### Concrete fixtures used by witness theorems -/

/-- A parser that rejects everything (used where the payloads never parse). -/
def parseNone : List Char → Option StreamEvent := fun _ => none

/-- The spec §8 reassembly example bytes:
`data: {"choices":[{"delta":{"content":"ab"}}]}` + two newlines. -/
def exBytes : List Char :=
  "data: \x7b\"choices\":[\x7b\"delta\":\x7b\"content\":\"ab\"\x7d\x7d]\x7d\n\n".data

/-- The example delivered in one chunk. -/
def exChunksA : List (List Char) := [exBytes]

/-- The example split at byte 10 into two chunk deliveries. -/
def exChunksB : List (List Char) := [exBytes.take 10, exBytes.drop 10]

/-- Sample line carrying a reasoning-only delta. -/
def lineR : List Char := "data: R1".data

/-- Sample line carrying a content-only delta. -/
def lineC : List Char := "data: C1".data

/-- Sample parser mapping `lineR`'s payload to `{delta:{reasoning_content:"R"}}`
and `lineC`'s payload to `{delta:{content:"C"}}`. -/
def parseRC : List Char → Option StreamEvent := fun s =>
  if s = "R1".data then some ⟨[⟨some ⟨some "R", none⟩⟩]⟩
  else if s = "C1".data then some ⟨[⟨some ⟨none, some "C"⟩⟩]⟩
  else none

/-- A well-formed delta line whose content text contains the `[DONE]`
sentinel as a substring. -/
def doneContentLine : List Char :=
  "data: \x7b\"choices\":[\x7b\"delta\":\x7b\"content\":\"x[DONE]y\"\x7d\x7d]\x7d".data

/-- The event `doneContentLine`'s payload denotes. -/
def doneContentEvent : StreamEvent := ⟨[⟨some ⟨none, some "x[DONE]y"⟩⟩]⟩

/-- A parser that parses `doneContentLine`'s payload (it is well-formed JSON). -/
def parseDone : List Char → Option StreamEvent := fun s =>
  if s = doneContentLine.drop 6 then some doneContentEvent else none

/-- A `data: ` line whose payload is not JSON. -/
def badLine : List Char := "data: notjson".data

/-- An event with two choices; the second carries a reasoning fragment. -/
def twoChoiceEvent : StreamEvent :=
  ⟨[⟨some ⟨none, some "a"⟩⟩, ⟨some ⟨some "hidden", some "b"⟩⟩]⟩

/-- Sample line for `twoChoiceEvent`. -/
def lineTwo : List Char := "data: two".data

/-- Sample parser mapping `lineTwo`'s payload to `twoChoiceEvent`. -/
def parseTwo : List Char → Option StreamEvent := fun s =>
  if s = "two".data then some twoChoiceEvent else none

/-! ### Lemmas about the buffering / line-splitting step -/

theorem splitNl_ne_nil (s : List Char) : splitNl s ≠ [] := by
  induction s with
  | nil => simp [splitNl]
  | cons c rest ih =>
    simp only [splitNl]
    split
    · simp
    · cases h : splitNl rest with
      | nil => simp
      | cons l ls => simp

theorem feed_eq_splitNl (s : List Char) :
    feed s = ((splitNl s).dropLast, (splitNl s).getLastD []) := by
  induction s with
  | nil => rfl
  | cons c rest ih =>
    by_cases hc : c = '\n'
    · subst hc
      cases h : splitNl rest with
      | nil => exact absurd h (splitNl_ne_nil rest)
      | cons l ls =>
        simp only [feed, splitNl, if_pos rfl, ih, h]
        simp [List.getLastD]
    · cases h : splitNl rest with
      | nil => exact absurd h (splitNl_ne_nil rest)
      | cons l ls =>
        cases ls with
        | nil =>
          simp only [feed, splitNl, if_neg hc, ih, h]
          simp [List.getLastD]
        | cons l2 ls2 =>
          simp only [feed, splitNl, if_neg hc, ih, h]
          simp [List.getLastD]

theorem feed_append (a b : List Char) :
    feed (a ++ b) =
      ((feed a).1 ++ (feed ((feed a).2 ++ b)).1, (feed ((feed a).2 ++ b)).2) := by
  induction a with
  | nil => simp [feed]
  | cons c a ih =>
    by_cases hc : c = '\n'
    · subst hc
      simp only [List.cons_append, feed, if_pos rfl, ih]
      simp [ih]
    · cases h : (feed a).1 with
      | nil =>
        simp only [List.cons_append, feed, if_neg hc, h, List.append_eq]
        rw [ih, h]
        cases hF : (feed ((feed a).2 ++ b)).1 <;> simp [hF]
      | cons l ls =>
        simp only [List.cons_append, feed, if_neg hc, h, List.append_eq]
        rw [ih, h]
        simp

theorem feed_snd_no_nl (s : List Char) : '\n' ∉ (feed s).2 := by
  induction s with
  | nil => simp [feed]
  | cons c rest ih =>
    by_cases hc : c = '\n'
    · subst hc
      simpa [feed] using ih
    · cases h : (feed rest).1 with
      | nil =>
        simp only [feed, if_neg hc, h]
        simp only [List.mem_cons, not_or]
        exact ⟨fun he => hc he.symm, by simpa [h] using ih⟩
      | cons l ls =>
        simp only [feed, if_neg hc, h]
        simpa [h] using ih

theorem feed_of_no_nl (s : List Char) (h : '\n' ∉ s) : feed s = ([], s) := by
  induction s with
  | nil => rfl
  | cons c rest ih =>
    have hc : c ≠ '\n' := fun he => h (he ▸ List.mem_cons_self c rest)
    have hr : '\n' ∉ rest := fun hm => h (List.mem_cons_of_mem c hm)
    simp only [feed, if_neg (fun he => hc he), ih hr]

theorem processLines_append (showReasoning : Bool)
    (parse : List Char → Option StreamEvent) (st : Bool) (l1 l2 : List (List Char)) :
    processLines showReasoning parse st (l1 ++ l2) =
      ((processLines showReasoning parse st l1).1 ++
        (processLines showReasoning parse (processLines showReasoning parse st l1).2 l2).1,
       (processLines showReasoning parse (processLines showReasoning parse st l1).2 l2).2) := by
  induction l1 generalizing st with
  | nil => simp [processLines]
  | cons l ls ih => simp [processLines, ih]

theorem handleChunk_eq_feed (showReasoning : Bool)
    (parse : List Char → Option StreamEvent) (s : HState) (chunk : List Char) :
    handleChunk showReasoning parse s chunk =
      ((processLines showReasoning parse s.reasoningStarted
          (feed (s.buffer ++ chunk)).1).1,
       ⟨(feed (s.buffer ++ chunk)).2,
        (processLines showReasoning parse s.reasoningStarted
          (feed (s.buffer ++ chunk)).1).2⟩) := by
  simp [handleChunk, feed_eq_splitNl]

theorem runStream_normal (showReasoning : Bool)
    (parse : List Char → Option StreamEvent) :
    ∀ (chunks : List (List Char)) (buf : List Char) (rs : Bool), '\n' ∉ buf →
    runStream showReasoning parse ⟨buf, rs⟩ chunks =
      ((processLines showReasoning parse rs (feed (buf ++ chunks.flatten)).1).1,
       ⟨(feed (buf ++ chunks.flatten)).2,
        (processLines showReasoning parse rs (feed (buf ++ chunks.flatten)).1).2⟩) := by
  intro chunks
  induction chunks with
  | nil =>
    intro buf rs h
    rw [show buf ++ ([] : List (List Char)).flatten = buf by simp]
    rw [feed_of_no_nl buf h]
    simp [runStream, processLines]
  | cons c cs ih =>
    intro buf rs h
    simp only [runStream, handleChunk_eq_feed]
    rw [ih _ _ (feed_snd_no_nl _)]
    rw [show buf ++ (c :: cs).flatten = (buf ++ c) ++ cs.flatten by simp]
    rw [feed_append (buf ++ c) cs.flatten, processLines_append]

/-! ### Claim theorems -/

/-- C1: the streaming buffer/line-split step is invariant under chunk
fragmentation: any two partitions of the same upstream text into chunks
produce the same writes (hence the same concatenated outbound stream)
and the same final handler state, and both agree with delivering the
whole text as one chunk — no byte is dropped or duplicated when a line
boundary splits across chunk deliveries. -/
theorem C1_chunking_invariance (showReasoning : Bool)
    (parse : List Char → Option StreamEvent) (cs1 cs2 : List (List Char))
    (h : cs1.flatten = cs2.flatten) :
    runStream0 showReasoning parse cs1 = runStream0 showReasoning parse cs2 ∧
    runStream0 showReasoning parse cs1 =
      runStream0 showReasoning parse [cs1.flatten] := by
  have n1 := runStream_normal showReasoning parse cs1 [] false (by simp)
  have n2 := runStream_normal showReasoning parse cs2 [] false (by simp)
  have n3 := runStream_normal showReasoning parse [cs1.flatten] [] false (by simp)
  unfold runStream0
  refine ⟨?_, ?_⟩
  · rw [n1, n2, h]
  · rw [n1, n3]
    simp

theorem C1_witness :
    runStream0 false parseNone exChunksA = runStream0 false parseNone exChunksB :=
  (C1_chunking_invariance false parseNone exChunksA exChunksB (by decide)).1

theorem append_ne_empty_left (s t : String) (h : s ≠ "") : s ++ t ≠ "" := by
  intro he
  apply h
  have hd : s.data ++ t.data = [] := by
    rw [← String.data_append, he]
  have hs : s.data = [] := (List.append_eq_nil.mp hd).1
  cases s
  exact (congrArg String.mk hs).trans rfl

/-- C2: with the reasoning-display flag enabled, a stream delivering
first a delta carrying only `reasoning_content = R` and then a delta
carrying only `content = C` (both nonempty) produces outbound deltas
whose contents are `"<think>\n" ++ R` and then `"</think>\n\n" ++ C`,
and the `reasoning_content` key is absent from both outbound deltas. -/
theorem C2_reasoning_stream (parse : List Char → Option StreamEvent)
    (l1 l2 : List Char) (R C : String) (hR : R ≠ "") (hC : C ≠ "")
    (h1p : dataMarker.isPrefixOf l1 = true) (h1d : ¬(doneMarker <:+: l1))
    (h1 : parse (l1.drop 6) = some ⟨[⟨some ⟨some R, none⟩⟩]⟩)
    (h2p : dataMarker.isPrefixOf l2 = true) (h2d : ¬(doneMarker <:+: l2))
    (h2 : parse (l2.drop 6) = some ⟨[⟨some ⟨none, some C⟩⟩]⟩) :
    processLines true parse false [l1, l2] =
      ([OutWrite.event ⟨[⟨some ⟨none, some ("<think>\n" ++ R)⟩⟩]⟩,
        OutWrite.event ⟨[⟨some ⟨none, some ("</think>\n\n" ++ C)⟩⟩]⟩], false) := by
  have hthink : ("<think>\n" ++ R) ≠ "" :=
    append_ne_empty_left _ _ (by decide)
  have hclose : ("" ++ "</think>\n\n" ++ C) ≠ "" :=
    append_ne_empty_left ("" ++ "</think>\n\n") C (by decide)
  have hclose2 : ("</think>\n\n" ++ C) ≠ "" :=
    append_ne_empty_left _ C (by decide)
  simp [processLines, processLine, h1p, h1d, h1, h2p, h2d, h2,
    transformEvent, transformDelta, truthyS, hR, hC, hthink, hclose, hclose2]

theorem C2_witness :
    processLines true parseRC false [lineR, lineC] =
      ([OutWrite.event ⟨[⟨some ⟨none, some ("<think>\n" ++ "R")⟩⟩]⟩,
        OutWrite.event ⟨[⟨some ⟨none, some ("</think>\n\n" ++ "C")⟩⟩]⟩], false) :=
  C2_reasoning_stream parseRC lineR lineC "R" "C" (by decide) (by decide)
    (by decide) (by decide) (by rfl) (by decide) (by decide) (by rfl)

/-- C5 counterexample: `doneContentLine` is a `data: ` line whose payload
is a well-formed JSON delta (it parses) and is not the `[DONE]`
sentinel, yet the handler forwards it verbatim and writes no
transformed event, because the `[DONE]` test is a substring test on the
whole line. -/
theorem C5_counterexample :
    doneContentLine.drop 6 ≠ "[DONE]".data ∧
    parseDone (doneContentLine.drop 6) = some doneContentEvent ∧
    processLine true parseDone false doneContentLine =
      ([OutWrite.verbatim doneContentLine], false) ∧
    writtenEvents (processLine true parseDone false doneContentLine).1 = [] := by
  refine ⟨by decide, by rfl, by decide, by decide⟩

/-- C5 (amended): a complete `data: ` line is forwarded verbatim with
transformation skipped whenever the line contains the `[DONE]` sentinel
as a substring anywhere (not exactly when its payload is the sentinel);
a `data: ` line not containing the sentinel whose payload parses does
undergo the delta transformation. -/
theorem C5_amended_done_check (showReasoning : Bool)
    (parse : List Char → Option StreamEvent) (st : Bool) (line : List Char)
    (ev : StreamEvent) (hp : dataMarker.isPrefixOf line = true) :
    ((doneMarker <:+: line) →
      processLine showReasoning parse st line = ([OutWrite.verbatim line], st)) ∧
    (¬(doneMarker <:+: line) → parse (line.drop 6) = some ev →
      processLine showReasoning parse st line =
        ([OutWrite.event (transformEvent showReasoning st ev).1],
         (transformEvent showReasoning st ev).2)) := by
  constructor
  · intro hd
    simp [processLine, hp, hd]
  · intro hd hparse
    simp [processLine, hp, hd, hparse]

theorem C5_witness :
    processLine true parseDone false doneContentLine =
      ([OutWrite.verbatim doneContentLine], false) ∧
    processLine true parseRC false lineC =
      ([OutWrite.event (transformEvent true false ⟨[⟨some ⟨none, some "C"⟩⟩]⟩).1],
       (transformEvent true false ⟨[⟨some ⟨none, some "C"⟩⟩]⟩).2) :=
  ⟨(C5_amended_done_check true parseDone false doneContentLine doneContentEvent
      (by decide)).1 (by decide),
   (C5_amended_done_check true parseRC false lineC ⟨[⟨some ⟨none, some "C"⟩⟩]⟩
      (by decide)).2 (by decide) (by rfl)⟩

/-- C7: a complete `data: ` line (not a `[DONE]` line) whose payload
fails to parse is forwarded byte-identical to the client — the write is
exactly the original line followed by its newline delimiter — the
latched state is unchanged, and the stream is not aborted: subsequent
lines are processed exactly as if the malformed line had not occurred. -/
theorem C7_parse_failure_fail_open (showReasoning : Bool)
    (parse : List Char → Option StreamEvent) (st : Bool) (line : List Char)
    (rest : List (List Char))
    (hp : dataMarker.isPrefixOf line = true) (hd : ¬(doneMarker <:+: line))
    (hparse : parse (line.drop 6) = none) :
    processLine showReasoning parse st line = ([OutWrite.verbatim line], st) ∧
    (∀ stringify, outBytes stringify (OutWrite.verbatim line) = line ++ ['\n']) ∧
    processLines showReasoning parse st (line :: rest) =
      (OutWrite.verbatim line :: (processLines showReasoning parse st rest).1,
       (processLines showReasoning parse st rest).2) := by
  have h1 : processLine showReasoning parse st line =
      ([OutWrite.verbatim line], st) := by
    simp [processLine, hp, hd, hparse]
  exact ⟨h1, fun _ => rfl, by simp [processLines, h1]⟩

theorem C7_witness :
    processLine false parseNone false badLine =
      ([OutWrite.verbatim badLine], false) ∧
    outBytes (fun _ => []) (OutWrite.verbatim badLine) = badLine ++ ['\n'] := by
  have h := C7_parse_failure_fail_open false parseNone false badLine []
    (by decide) (by decide) (by rfl)
  exact ⟨h.1, h.2.1 (fun _ => [])⟩

/-- C9: the streaming rewrite inspects and rewrites only the first
element of a parsed event's choices array: for an event with two or
more choices, exactly one event frame is written, and every choice at
index 1 or greater appears in it unchanged — including any
`reasoning_content` it carries, which therefore reaches the client. -/
theorem C9_other_choices_untouched (showReasoning : Bool)
    (parse : List Char → Option StreamEvent) (st : Bool) (line : List Char)
    (ev : StreamEvent)
    (hp : dataMarker.isPrefixOf line = true) (hd : ¬(doneMarker <:+: line))
    (hparse : parse (line.drop 6) = some ev) (hlen : 2 ≤ ev.choices.length) :
    processLine showReasoning parse st line =
      ([OutWrite.event (transformEvent showReasoning st ev).1],
       (transformEvent showReasoning st ev).2) ∧
    (transformEvent showReasoning st ev).1.choices.drop 1 = ev.choices.drop 1 ∧
    ∀ i, 1 ≤ i →
      (transformEvent showReasoning st ev).1.choices[i]? = ev.choices[i]? := by
  refine ⟨by simp [processLine, hp, hd, hparse], ?_, ?_⟩
  · cases hev : ev.choices with
    | nil => simp [transformEvent, hev]
    | cons c0 rest =>
      cases hc : c0.delta <;> simp [transformEvent, hev, hc]
  · intro i hi
    match i, hi with
    | (n + 1), _ =>
      cases hev : ev.choices with
      | nil => simp [transformEvent, hev]
      | cons c0 rest =>
        cases hc : c0.delta <;> simp [transformEvent, hev, hc]

theorem C9_witness :
    processLine false parseTwo false lineTwo =
      ([OutWrite.event (transformEvent false false twoChoiceEvent).1],
       (transformEvent false false twoChoiceEvent).2) ∧
    (transformEvent false false twoChoiceEvent).1.choices.drop 1 =
      twoChoiceEvent.choices.drop 1 := by
  have h := C9_other_choices_untouched false parseTwo false lineTwo twoChoiceEvent
    (by decide) (by decide) (by rfl) (by decide)
  exact ⟨h.1, h.2.1⟩

theorem append_ne_empty_right (s t : String) (h : t ≠ "") : s ++ t ≠ "" := by
  intro he
  apply h
  have hd : s.data ++ t.data = [] := by
    rw [← String.data_append, he]
  have ht : t.data = [] := (List.append_eq_nil.mp hd).2
  cases t
  exact (congrArg String.mk ht).trans rfl

theorem delta_balance (st : Bool) (d : Delta) :
    deltaOpens st d + (if st then 1 else 0) =
      deltaCloses st d + (if (transformDelta true st d).2 then 1 else 0) := by
  cases hr : truthyS d.reasoning_content <;> cases hc : truthyS d.content <;>
    cases st <;> simp [deltaOpens, deltaCloses, transformDelta, hr, hc] <;>
    split <;> simp

theorem processLine_state (parse : List Char → Option StreamEvent) (st : Bool)
    (line : List Char) :
    (processLine true parse st line).2 =
      match lineDelta parse line with
      | none => st
      | some d => (transformDelta true st d).2 := by
  cases hp : dataMarker.isPrefixOf line with
  | false => simp [processLine, lineDelta, hp]
  | true =>
    by_cases hd : doneMarker <:+: line
    · simp [processLine, lineDelta, hp, hd]
    · cases hparse : parse (line.drop 6) with
      | none => simp [processLine, lineDelta, hp, hd, hparse]
      | some data =>
        cases hev : data.choices with
        | nil => simp [processLine, lineDelta, transformEvent, hp, hd, hparse, hev]
        | cons c0 rest =>
          cases hc : c0.delta <;>
            simp [processLine, lineDelta, transformEvent, hp, hd, hparse, hev, hc]

theorem countLines_state (parse : List Char → Option StreamEvent) :
    ∀ (lines : List (List Char)) (st : Bool),
    (countLines parse st lines).2.2 = (processLines true parse st lines).2 := by
  intro lines
  induction lines with
  | nil => intro st; rfl
  | cons l ls ih =>
    intro st
    have hs := processLine_state parse st l
    cases hld : lineDelta parse l with
    | none =>
      rw [hld] at hs
      simp only [countLines, hld, processLines, hs]
      exact ih st
    | some d =>
      rw [hld] at hs
      simp only [countLines, hld, processLines, hs]
      exact ih ((transformDelta true st d).2)

theorem countLines_balance (parse : List Char → Option StreamEvent) :
    ∀ (lines : List (List Char)) (st : Bool),
    (countLines parse st lines).1 + (if st then 1 else 0) =
      (countLines parse st lines).2.1 +
        (if (countLines parse st lines).2.2 then 1 else 0) := by
  intro lines
  induction lines with
  | nil => intro st; simp [countLines]
  | cons l ls ih =>
    intro st
    cases hld : lineDelta parse l with
    | none => simpa [countLines, hld] using ih st
    | some d =>
      simp only [countLines, hld]
      have hb := delta_balance st d
      have hi := ih ((transformDelta true st d).2)
      omega

/-- C10: with reasoning display enabled and starting from a cleared
latch, after processing any line sequence the number of `<think>`
opening markers injected equals the number of `</think>` closing
markers injected plus the current value of the latched
`reasoningStarted` flag — so the open/close balance is always 0 or 1,
markers alternate, and they are never nested. -/
theorem C10_think_delimiter_invariant (parse : List Char → Option StreamEvent)
    (lines : List (List Char)) :
    (countLines parse false lines).1 =
      (countLines parse false lines).2.1 +
        (if (processLines true parse false lines).2 then 1 else 0) ∧
    (countLines parse false lines).2.2 = (processLines true parse false lines).2 := by
  have hs := countLines_state parse lines false
  have hb := countLines_balance parse lines false
  simp only [Bool.false_eq_true, if_false, Nat.add_zero] at hb
  rw [← hs]
  exact ⟨hb, rfl⟩

theorem deltaOpens_ground (st : Bool) (d : Delta) (h : deltaOpens st d = 1) :
    "<think>\n".data <+: (((transformDelta true st d).1).content.getD "").data := by
  unfold deltaOpens at h
  split at h
  case isTrue hcond =>
    simp only [Bool.and_eq_true] at hcond
    have hr : truthyS d.reasoning_content = true := hcond.1
    have hst : st = false := by
      have h2 := hcond.2
      simpa using h2
    subst hst
    have hne1 : ("<think>\n" ++ d.reasoning_content.getD "") ≠ "" :=
      append_ne_empty_left _ _ (by decide)
    cases hc : truthyS d.content with
    | false =>
      have ht : transformDelta true false d =
          ({ reasoning_content := none,
             content := some ("<think>\n" ++ d.reasoning_content.getD "") }, true) := by
        simp [transformDelta, hr, hc, hne1]
      rw [ht]
      exact ⟨(d.reasoning_content.getD "").data, by simp [String.data_append]⟩
    | true =>
      have hne3 : ("<think>\n" ++ d.reasoning_content.getD "") ++ "</think>\n\n"
          ++ d.content.getD "" ≠ "" :=
        append_ne_empty_left _ _ (append_ne_empty_left _ _ hne1)
      have ht : transformDelta true false d =
          ({ reasoning_content := none,
             content := some ("<think>\n" ++ d.reasoning_content.getD ""
               ++ "</think>\n\n" ++ d.content.getD "") }, false) := by
        simp [transformDelta, hr, hc, hne3]
      rw [ht]
      exact ⟨(d.reasoning_content.getD "").data ++ "</think>\n\n".data ++
        (d.content.getD "").data, by simp [String.data_append]⟩
  case isFalse => exact absurd h (by decide)

theorem deltaCloses_ground (st : Bool) (d : Delta) (h : deltaCloses st d = 1) :
    "</think>\n\n".data <:+: (((transformDelta true st d).1).content.getD "").data := by
  unfold deltaCloses at h
  split at h
  case isTrue hcond =>
    simp only [Bool.and_eq_true] at hcond
    have hc : truthyS d.content = true := hcond.1
    have hor : (st || truthyS d.reasoning_content) = true := hcond.2
    cases hst : st with
    | false =>
      have hr : truthyS d.reasoning_content = true := by
        rw [hst] at hor
        simpa using hor
      have hne1 : ("<think>\n" ++ d.reasoning_content.getD "") ≠ "" :=
        append_ne_empty_left _ _ (by decide)
      have hne3 : ("<think>\n" ++ d.reasoning_content.getD "") ++ "</think>\n\n"
          ++ d.content.getD "" ≠ "" :=
        append_ne_empty_left _ _ (append_ne_empty_left _ _ hne1)
      subst hst
      have ht : transformDelta true false d =
          ({ reasoning_content := none,
             content := some ("<think>\n" ++ d.reasoning_content.getD ""
               ++ "</think>\n\n" ++ d.content.getD "") }, false) := by
        simp [transformDelta, hr, hc, hne3]
      rw [ht]
      exact ⟨"<think>\n".data ++ (d.reasoning_content.getD "").data,
        (d.content.getD "").data, by simp [String.data_append]⟩
    | true =>
      subst hst
      cases hr : truthyS d.reasoning_content with
      | false =>
        have hne : "</think>\n\n" ++ d.content.getD "" ≠ "" :=
          append_ne_empty_left _ _ (by decide)
        have ht : transformDelta true true d =
            ({ reasoning_content := none,
               content := some ("</think>\n\n" ++ d.content.getD "") }, false) := by
          simp [transformDelta, hr, hc, hne]
        rw [ht]
        exact ⟨[], (d.content.getD "").data, by simp [String.data_append]⟩
      | true =>
        have hne : (d.reasoning_content.getD "" ++ "</think>\n\n")
            ++ d.content.getD "" ≠ "" :=
          append_ne_empty_left _ _ (append_ne_empty_right _ _ (by decide))
        have ht : transformDelta true true d =
            ({ reasoning_content := none,
               content := some (d.reasoning_content.getD ""
                 ++ "</think>\n\n" ++ d.content.getD "") }, false) := by
          simp [transformDelta, hr, hc, hne]
        rw [ht]
        exact ⟨(d.reasoning_content.getD "").data, (d.content.getD "").data,
          by simp [String.data_append]⟩
  case isFalse => exact absurd h (by decide)

/-- C3 counterexample: an explicitly supplied `max_tokens: 0` does not
appear unchanged upstream — the first handler's `max_tokens || 4096`
replaces it with 4096; likewise the second handler's
`temperature || 0.6` replaces an explicit `temperature: 0` with 0.6. -/
theorem C3_counterexample :
    (nimRequest "m" [] none (some 0) none none none false none).max_tokens = 4096 ∧
    (nimRequest "m" [] none (some 0) none none none false none).max_tokens ≠ 0 ∧
    (nimRequest2 "m" [] (some 0) none false none).temperature = 0.6 ∧
    (nimRequest2 "m" [] (some 0) none false none).temperature ≠ 0 := by
  refine ⟨?_, ?_, ?_, ?_⟩
  · norm_num [nimRequest, truthyQ]
  · norm_num [nimRequest, truthyQ]
  · norm_num [nimRequest2, truthyQ]
  · norm_num [nimRequest2, truthyQ]

/-- C3 (amended): in the first handler `temperature`, `top_p`,
`presence_penalty` and `frequency_penalty` are replaced by their fixed
defaults exactly when absent (an explicit 0 is preserved), but
`max_tokens` is truthiness-tested and falls back to 4096 when absent or
explicitly 0; in the second handler `temperature` and `max_tokens` are
both truthiness-tested (defaults 0.6 and 9024). -/
theorem C3_amended_parameter_defaulting (nimModel : String)
    (msgs : List ChatMessage) (t mt tp pp fp : Option ℚ) (m : ℚ)
    (enableThinking : Bool) (stream : Option Bool) :
    (nimRequest nimModel msgs t mt tp pp fp enableThinking stream).temperature
        = t.getD 0.85 ∧
    (nimRequest nimModel msgs t mt tp pp fp enableThinking stream).top_p
        = tp.getD 0.95 ∧
    (nimRequest nimModel msgs t mt tp pp fp enableThinking stream).presence_penalty
        = pp.getD 0.6 ∧
    (nimRequest nimModel msgs t mt tp pp fp enableThinking stream).frequency_penalty
        = fp.getD 0.3 ∧
    ((mt = none ∨ mt = some 0) →
      (nimRequest nimModel msgs t mt tp pp fp enableThinking stream).max_tokens = 4096) ∧
    (mt = some m → m ≠ 0 →
      (nimRequest nimModel msgs t mt tp pp fp enableThinking stream).max_tokens = m) ∧
    ((t = none ∨ t = some 0) →
      (nimRequest2 nimModel msgs t mt enableThinking stream).temperature = 0.6) ∧
    (t = some m → m ≠ 0 →
      (nimRequest2 nimModel msgs t mt enableThinking stream).temperature = m) ∧
    ((mt = none ∨ mt = some 0) →
      (nimRequest2 nimModel msgs t mt enableThinking stream).max_tokens = 9024) ∧
    (mt = some m → m ≠ 0 →
      (nimRequest2 nimModel msgs t mt enableThinking stream).max_tokens = m) := by
  refine ⟨rfl, rfl, rfl, rfl, ?_, ?_, ?_, ?_, ?_, ?_⟩
  · rintro (rfl | rfl) <;> simp [nimRequest, truthyQ]
  · rintro rfl hm
    simp [nimRequest, truthyQ, bne_iff_ne.mpr hm]
  · rintro (rfl | rfl) <;> simp [nimRequest2, truthyQ]
  · rintro rfl hm
    simp [nimRequest2, truthyQ, bne_iff_ne.mpr hm]
  · rintro (rfl | rfl) <;> simp [nimRequest2, truthyQ]
  · rintro rfl hm
    simp [nimRequest2, truthyQ, bne_iff_ne.mpr hm]

theorem C3_witness :
    (nimRequest "m" [] (some 0) (some 0) (some 0) (some 0) (some 0) false none).temperature = 0 ∧
    (nimRequest "m" [] (some 0) (some 0) (some 0) (some 0) (some 0) false none).top_p = 0 ∧
    (nimRequest "m" [] (some 0) (some 0) (some 0) (some 0) (some 0) false none).max_tokens = 4096 ∧
    (nimRequest "m" [] none (some 7) none none none false none).max_tokens = 7 := by
  have h1 := C3_amended_parameter_defaulting "m" []
    (some 0) (some 0) (some 0) (some 0) (some 0) 0 false none
  have h2 := C3_amended_parameter_defaulting "m" []
    none (some 7) none none none 7 false none
  refine ⟨by simpa using h1.1, by simpa using h1.2.1, ?_, ?_⟩
  · exact h1.2.2.2.2.1 (Or.inr rfl)
  · exact h2.2.2.2.2.2.1 rfl (by norm_num)

/-- C4 counterexample: "my-model" is absent from the alias table and
matches none of the heuristic substrings, yet with a failed probe the
first handler resolves it to the 70b model — the very model of the
mid-tier branch, not a small-tier default — while the second handler's
copy of the heuristic yields the 8b model; the claim's "remaining
identifiers resolve to the small-tier default" fails on the first
handler. -/
theorem C4_counterexample :
    MODEL_MAPPING "my-model" = none ∧
    resolveModel false "my-model" = "meta/llama-3.1-70b-instruct" ∧
    fallbackModel2 "my-model" = "meta/llama-3.1-8b-instruct" ∧
    resolveModel false "my-model" = fallbackModel "gemini-x" ∧
    resolveModel false "my-model" ≠ fallbackModel2 "my-model" := by
  refine ⟨by decide, by decide, by decide, by decide, by decide⟩

/-- C4 (amended): for identifiers absent from the alias table with a
failed/no-adoption probe, both handlers resolve identifiers containing
"gpt-4", "claude-opus" or "405b" (case-insensitively) to the 405b
model, and otherwise those containing "claude", "gemini" or "70b" to
the 70b model; for all remaining identifiers the first handler resolves
to the 70b model (the mid-tier model, per the line-102 comment) while
the second handler resolves to the 8b model. -/
theorem C4_amended_fallback_heuristic (model : String)
    (hmap : MODEL_MAPPING model = none) :
    ((includesStr (toLowerCase model) "gpt-4" ||
        includesStr (toLowerCase model) "claude-opus" ||
        includesStr (toLowerCase model) "405b") = true →
      resolveModel false model = "meta/llama-3.1-405b-instruct" ∧
      resolveModel2 false model = "meta/llama-3.1-405b-instruct") ∧
    ((includesStr (toLowerCase model) "gpt-4" ||
        includesStr (toLowerCase model) "claude-opus" ||
        includesStr (toLowerCase model) "405b") = false →
      (includesStr (toLowerCase model) "claude" ||
        includesStr (toLowerCase model) "gemini" ||
        includesStr (toLowerCase model) "70b") = true →
      resolveModel false model = "meta/llama-3.1-70b-instruct" ∧
      resolveModel2 false model = "meta/llama-3.1-70b-instruct") ∧
    ((includesStr (toLowerCase model) "gpt-4" ||
        includesStr (toLowerCase model) "claude-opus" ||
        includesStr (toLowerCase model) "405b") = false →
      (includesStr (toLowerCase model) "claude" ||
        includesStr (toLowerCase model) "gemini" ||
        includesStr (toLowerCase model) "70b") = false →
      resolveModel false model = "meta/llama-3.1-70b-instruct" ∧
      resolveModel2 false model = "meta/llama-3.1-8b-instruct") := by
  refine ⟨?_, ?_, ?_⟩
  · intro hbig
    constructor <;>
      simp [resolveModel, resolveModel2, fallbackModel, fallbackModel2, hmap, hbig]
  · intro hbig hmid
    constructor <;>
      simp [resolveModel, resolveModel2, fallbackModel, fallbackModel2, hmap, hbig, hmid]
  · intro hbig hmid
    constructor <;>
      simp [resolveModel, resolveModel2, fallbackModel, fallbackModel2, hmap, hbig, hmid]

theorem C4_witness :
    resolveModel false "GPT-4-mini" = "meta/llama-3.1-405b-instruct" ∧
    resolveModel false "gemini-x" = "meta/llama-3.1-70b-instruct" ∧
    resolveModel false "my-model" = "meta/llama-3.1-70b-instruct" ∧
    resolveModel2 false "my-model" = "meta/llama-3.1-8b-instruct" := by
  have h1 := (C4_amended_fallback_heuristic "GPT-4-mini" (by decide)).1 (by decide)
  have h2 := (C4_amended_fallback_heuristic "gemini-x" (by decide)).2.1
    (by decide) (by decide)
  have h3 := (C4_amended_fallback_heuristic "my-model" (by decide)).2.2
    (by decide) (by decide)
  exact ⟨h1.1, h2.1, h3.1, h3.2⟩

/-- C6: with detailed-response injection enabled: when no system-role
message is present the processed sequence is the fixed detailed-response
system prompt prepended to the unchanged inbound sequence, so its
length is the inbound length plus one; when a system-role message is
present, no message is inserted (length unchanged) and, position by
position, each system message gets the fixed elaboration suffix
appended to its content while every other message is unchanged. -/
theorem C6_prompt_injection (messages : List ChatMessage) :
    ((messages.any (fun m => m.role == "system")) = false →
      processedMessages true messages =
        { role := "system", content := DETAILED_SYSTEM_PROMPT } :: messages ∧
      (processedMessages true messages).length = messages.length + 1) ∧
    ((messages.any (fun m => m.role == "system")) = true →
      (processedMessages true messages).length = messages.length ∧
      ∀ i : Nat,
        (processedMessages true messages)[i]? =
          (messages[i]?).map (fun m =>
            if m.role == "system" then
              { m with content := m.content ++ ENHANCE_SUFFIX }
            else m)) := by
  constructor
  · intro h
    constructor
    · simp [processedMessages, h]
    · simp [processedMessages, h]
  · intro h
    constructor
    · simp [processedMessages, h]
    · intro i
      simp [processedMessages, h, List.getElem?_map]

theorem C6_witness :
    processedMessages true [{ role := "user", content := "hi" }] =
      [{ role := "system", content := DETAILED_SYSTEM_PROMPT },
       { role := "user", content := "hi" }] ∧
    (processedMessages true
        [{ role := "user", content := "hi" },
         { role := "system", content := "s" }]).length = 2 ∧
    (processedMessages true
        [{ role := "user", content := "hi" },
         { role := "system", content := "s" }])[1]? =
      some { role := "system", content := "s" ++ ENHANCE_SUFFIX } := by
  have h1 := (C6_prompt_injection [{ role := "user", content := "hi" }]).1 (by decide)
  have h2 := (C6_prompt_injection
    [{ role := "user", content := "hi" }, { role := "system", content := "s" }]).2
    (by decide)
  refine ⟨h1.1, h2.1, ?_⟩
  rw [h2.2 1]
  decide

/-- C8: the non-streaming outbound response echoes the caller-supplied
inbound model identifier in its model field, and never the resolved
upstream identifier when the two differ. -/
theorem C8_model_echo (showReasoning : Bool) (model nimModel : String)
    (now : Nat) (body : NimResponseBody) (h : nimModel ≠ model) :
    (openaiResponse showReasoning model now body).model = model ∧
    (openaiResponse showReasoning model now body).model ≠ nimModel := by
  refine ⟨rfl, ?_⟩
  intro he
  exact h he.symm

theorem C8_witness :
    (openaiResponse false "gpt-4" 0 ⟨[], none⟩).model = "gpt-4" ∧
    (openaiResponse false "gpt-4" 0 ⟨[], none⟩).model ≠
      "qwen/qwen3-coder-480b-a35b-instruct" :=
  C8_model_echo false "gpt-4" "qwen/qwen3-coder-480b-a35b-instruct" 0 ⟨[], none⟩
    (by decide)
